import Mathlib

/-!
Shallow embedding of `src/async_session.rs` (crate `fuser`): the
`AsyncBackgroundSession` lifecycle bridge.  Pure data is translated
directly; the external collaborators (`Session::run`, the worker thread,
the tokio oneshot channel) are embedded through explicit oracles for
their terminal outcomes, and the effectful statements of each method
body are recorded as an ordered event trace interpreted by a small
lifecycle state machine.
-/

/-- Mount point paths (`std::path::PathBuf`). -/
abbrev FsPath := String

/-- `std::io::Error`, as this file uses it: the only constructor exercised is
`io::Error::from_raw_os_error`, so the model carries the raw OS error code
(`None` for errors not built from an errno, e.g. ones produced inside the
external session loop). -/
structure IoError where
  rawOsError : Option Int
deriving DecidableEq, Repr

/-- `libc::ENODEV` ("no such device"), errno 19 on Linux. -/
def ENODEV : Int := 19

/-- `io::Error::from_raw_os_error`. -/
def ioErrorFromRawOsError (code : Int) : IoError := ⟨some code⟩

/-- Terminal result of the external blocking loop `Session::run()`
(`io::Result<()>` = `Result<(), io::Error>`). -/
inductive RunResult where
  | ok : RunResult
  | err : IoError → RunResult
deriving DecidableEq, Repr

/-- How the spawned worker thread terminates, as observed through its
`JoinHandle<io::Result<()>>`: `JoinHandle::join` yields `Err(_)` when the
thread panicked and `Ok(r)` when the closure returned `r`. -/
inductive WorkerOutcome where
  | panicked : WorkerOutcome
  | returned : RunResult → WorkerOutcome
deriving DecidableEq, Repr

/-- `crate::mnt::Mount`: an opaque owned token whose destructor performs the
unmount (source comment: "Ensures the filesystem is unmounted when the
session ends"). -/
inductive Mount where
  | mk : Mount
deriving DecidableEq, Repr

/-- `crate::Session<FS>`, restricted to the two members `async_session.rs`
consumes: `mountpoint()` and the take-once `mount` field. -/
structure Session where
  mountpoint : FsPath
  mount : Option Mount
deriving DecidableEq, Repr

/-- What the producer half of the `tokio::sync::oneshot` channel has done, as
seen by the consumer at a given instant: a value was sent, the sender was
dropped without sending, or the sender is still alive and silent. -/
inductive SenderFate where
  | sent : SenderFate
  | droppedUnsent : SenderFate
  | pending : SenderFate
deriving DecidableEq, Repr

/-- `oneshot::error::RecvError`: the sender was dropped without sending. -/
inductive RecvError where
  | recvError : RecvError
deriving DecidableEq, Repr

/-- Awaiting `oneshot::Receiver<()>`: the future is still pending while the
sender is alive and silent (`none`), resolves with `Ok(())` once a value was
sent, and resolves with `Err(RecvError)` once the sender was dropped without
sending — it never pends forever after the sender half is resolved. -/
def recvAwait : SenderFate → Option (Except RecvError Unit)
  | .sent => some (.ok ())
  | .droppedUnsent => some (.error .recvError)
  | .pending => none

/-- `oneshot::Sender::send(())`: succeeds iff the receiver half still exists;
otherwise the value comes back as an error. -/
def senderSend (receiverAlive : Bool) : Except Unit Unit :=
  if receiverAlive then .ok () else .error ()

/-- The sender fate produced by the worker closure for a given worker
termination: a closure that returns (whatever the result) has executed
`let _ = s.send(());` first, while a panic inside `se.run()` unwinds past the
send and merely drops the sender. -/
def senderFateOf : WorkerOutcome → SenderFate
  | .panicked => .droppedUnsent
  | .returned _ => .sent

/-- Lifecycle events performed by the method bodies, in source order. -/
inductive Ev where
  | dropMountpoint : Ev
  | dropReceiver : Ev
  | releaseMount : Ev
  | blockOnWorker : Ev
  | detachWorker : Ev
  | runReturned : Ev
  | sendAttempted : Ev
  | suspendOnSignal : Ev
deriving DecidableEq, Repr

/-- Observable lifecycle state: whether the mount reservation is still held
(unmount not yet triggered) and whether the worker thread still exists. -/
structure LifeState where
  mountActive : Bool
  workerRunning : Bool
deriving DecidableEq, Repr

/-- Effect of one event on the lifecycle state: dropping the `Mount` token
releases the reservation (triggers the unmount); `guard.join()` returns only
once the worker thread has terminated and been reclaimed.  Detaching the
`JoinHandle` (dropping it) does not touch the thread. -/
def stepEv (st : LifeState) : Ev → LifeState
  | .releaseMount => { st with mountActive := false }
  | .blockOnWorker => { st with workerRunning := false }
  | _ => st

/-- Run a trace of events from a starting lifecycle state. -/
def runTrace (st : LifeState) (t : List Ev) : LifeState := t.foldl stepEv st

/-- `pub struct AsyncBackgroundSession` (lines 41–50): mountpoint path,
thread guard (embedded as the outcome the `JoinHandle` will deliver),
the extracted `Mount` token, and the oneshot consumer (embedded as the
current state of its producer half, which is what a poll of the receiver
observes). -/
structure AsyncBackgroundSession where
  mountpoint : FsPath
  guard : WorkerOutcome
  _mount : Mount
  _receiver : SenderFate
deriving DecidableEq, Repr

/-- Where the `Session` value moved by the end of `new`: never handed back to
the caller, it is either captured by the spawned worker closure (success
path) or dropped when `new`'s scope ends (the `?` error path).  The
constructor `returnedToCaller` exists so the spec's claim about the error
path can be stated; the code never produces it. -/
inductive SessionFate where
  | returnedToCaller : SessionFate
  | droppedByNew : SessionFate
  | movedToWorker : SessionFate
deriving DecidableEq, Repr

/-- `AsyncBackgroundSession::new` (lines 56–77), with the external loop's
eventual termination supplied as the oracle `w`.  Alongside the source's
`io::Result<AsyncBackgroundSession>` the embedding records whether
`thread::spawn` was executed and where the session value went.

```
let mountpoint = se.mountpoint().to_path_buf();
let mount = std::mem::take(&mut se.mount);
let (s, r) = channel();
let mount = mount.ok_or_else(|| io::Error::from_raw_os_error(libc::ENODEV))?;
let guard = thread::spawn(move || \x7b ... \x7d);
Ok(AsyncBackgroundSession \x7b mountpoint, guard, _mount: mount, _receiver: r \x7d)
``` -/
def AsyncBackgroundSession.new (se : Session) (w : WorkerOutcome) :
    Except IoError AsyncBackgroundSession × Bool × SessionFate :=
  let mountpoint := se.mountpoint
  let mount := se.mount
  let se := { se with mount := none }
  match mount with
  | none => (.error (ioErrorFromRawOsError ENODEV), false, .droppedByNew)
  | some m =>
      let _capturedByWorker := se
      (.ok { mountpoint := mountpoint, guard := w, _mount := m,
             _receiver := .pending },
       true, .movedToWorker)

/-- The spawned worker closure body (lines 64–70), given the terminal result
of the external `se.run()` call and whether the receiver half still exists
when the send is attempted:

```
let mut se = se;
let res = se.run();
// ignore the error. There is no need to send anything if the channel was closed.
let _ = s.send(());
res
```

Returned: the ordered events the body performs, and the closure's return
value, which becomes the thread's outcome through the `JoinHandle`. -/
def workerBody (runRes : RunResult) (receiverAlive : Bool) : List Ev × RunResult :=
  let res := runRes
  let _ignored := senderSend receiverAlive
  ([Ev.runReturned, Ev.sendAttempted], res)

/-- `AsyncBackgroundSession::join` (lines 80–89):

```
let Self \x7b mountpoint: _, guard, _mount, _receiver: _ \x7d = self;
drop(_mount);
guard.join().unwrap().unwrap();
```

The trace records the ordered effects (fields matched by `_` are dropped at
the destructuring, then the explicit `drop(_mount)`, then the blocking
`guard.join()`).  The value is `some ()` when both unwraps succeed and
`none` when either panics (worker panic, or an `Err` terminal result). -/
def AsyncBackgroundSession.join (h : AsyncBackgroundSession) :
    List Ev × Option Unit :=
  ([Ev.dropMountpoint, Ev.dropReceiver, Ev.releaseMount, Ev.blockOnWorker],
   match h.guard with
   | .panicked => none
   | .returned .ok => some ()
   | .returned (.err _) => none)

/-- `AsyncBackgroundSession::await_umount` (lines 93–96):

```
pub async fn await_umount(self) \x7b
    let _ = self._receiver.await;
\x7d
```

One poll of the future, observing `self._receiver`: while the receiver's
await is pending the body performs no effect beyond the suspension itself
(in particular it drops nothing and joins nothing); once the await resolves
— with `Ok` or with `RecvError`, both discarded — the function returns `()`,
whereupon `self` goes out of scope and its fields are dropped in declaration
order (the `JoinHandle` detaching, the `Mount` releasing the reservation). -/
def AsyncBackgroundSession.await_umount (h : AsyncBackgroundSession) :
    List Ev × Option Unit :=
  match recvAwait h._receiver with
  | none => ([Ev.suspendOnSignal], none)
  | some _discarded =>
      ([Ev.suspendOnSignal, Ev.dropMountpoint, Ev.detachWorker,
        Ev.releaseMount, Ev.dropReceiver], some ())

/-- The handle as observed at any instant after the worker thread has
terminated with outcome `h.guard`: the producer half of the oneshot channel
has then reached its final state (`senderFateOf h.guard`). -/
def afterWorkerExit (h : AsyncBackgroundSession) : AsyncBackgroundSession :=
  { h with _receiver := senderFateOf h.guard }

/-- Dropping the handle without calling `join` or `await_umount`: Rust drops
the fields in declaration order — the `PathBuf`, then the `JoinHandle`
(which detaches the thread without waiting for it), then the `Mount` token
(whose destructor triggers the unmount), then the `Receiver`. -/
def AsyncBackgroundSession.dropHandle (_h : AsyncBackgroundSession) : List Ev :=
  [Ev.dropMountpoint, Ev.detachWorker, Ev.releaseMount, Ev.dropReceiver]

/-- The three ways a caller can consume a handle instance. -/
inductive HandleOp where
  | join : HandleOp
  | awaitUmount : HandleOp
  | drop : HandleOp
deriving DecidableEq, Repr

/-- Receiver binding modes a Rust method can declare. -/
inductive RecvMode where
  | byValue : RecvMode
  | byRef : RecvMode
  | byMutRef : RecvMode
deriving DecidableEq, Repr

/-- The receiver modes declared in the source: `pub fn join(self)` (line 80),
`pub async fn await_umount(self)` (line 93); dropping always takes the value. -/
def receiverMode : HandleOp → RecvMode
  | .join => .byValue
  | .awaitUmount => .byValue
  | .drop => .byValue

/-- `AsyncBackgroundSession` derives neither `Copy` nor `Clone` in the
source, so a by-value receiver moves the handle out of the variable. -/
def handleIsCopy : Bool := false

/-- An operation consumes the handle variable iff its receiver is by-value
and the type is not `Copy`. -/
def consumes (op : HandleOp) : Bool :=
  receiverMode op == RecvMode.byValue && !handleIsCopy

/-- Rust move checking of a straight-line sequence of operations invoked on
one handle variable: once a consuming operation has moved the value out, any
further use of the variable is rejected at compile time. -/
def moveCheck : List HandleOp → Bool
  | [] => true
  | op :: rest => if consumes op then rest.isEmpty else moveCheck rest

/-- The send outcome discarded by `let _ = s.send(());` never influences the
worker closure's behavior: the body is the same function of the run result
for every receiver state. -/
theorem workerBody_ignores_send (runRes : RunResult) (ra ra' : Bool) :
    workerBody runRes ra = workerBody runRes ra' := rfl

/-- Once the worker has exited, the poll of `await_umount` resolves with
`some ()`, whatever the worker's outcome was. -/
theorem awaitUmount_after_exit_resolves (h : AsyncBackgroundSession) :
    ((afterWorkerExit h).await_umount).2 = some () := by
  cases hg : h.guard <;>
    simp [afterWorkerExit, AsyncBackgroundSession.await_umount, senderFateOf,
      recvAwait, hg]

/-- C1: `join` drops the `Mount` token — the same trace for every handle,
whatever the worker's outcome — strictly before the blocking
`guard.join()`; running its trace leaves the mount released and the worker
thread reclaimed. -/
theorem join_releases_mount_before_blocking
    (h h' : AsyncBackgroundSession) (st : LifeState) :
    (h.join).1.indexOf Ev.releaseMount < (h.join).1.indexOf Ev.blockOnWorker
    ∧ Ev.releaseMount ∈ (h.join).1
    ∧ Ev.blockOnWorker ∈ (h.join).1
    ∧ (h.join).1 = (h'.join).1
    ∧ (runTrace st (h.join).1).mountActive = false
    ∧ (runTrace st (h.join).1).workerRunning = false := by
  refine ⟨by simp only [AsyncBackgroundSession.join]; decide,
    by simp only [AsyncBackgroundSession.join]; decide,
    by simp only [AsyncBackgroundSession.join]; decide, rfl, ?_, ?_⟩ <;>
    simp [AsyncBackgroundSession.join, runTrace, stepEv]

/-- C2: `join` completes normally exactly when the worker returned the
success result; a worker panic or an `Err` terminal result makes the double
unwrap panic, so no value is returned and the failure is never converted
into a recoverable return. -/
theorem join_aborts_unless_ok (h : AsyncBackgroundSession) :
    (h.join).2 = some () ↔ h.guard = WorkerOutcome.returned RunResult.ok := by
  cases hg : h.guard with
  | panicked => simp [AsyncBackgroundSession.join, hg]
  | returned r => cases r <;> simp [AsyncBackgroundSession.join, hg]

/-- C3: a session without a mount token makes `new` fail with the ENODEV
error and spawn no thread; a session with a token makes `new` succeed, the
spawn having been executed before the constructor returns. -/
theorem new_spawns_iff_token (se : Session) (w : WorkerOutcome) :
    (se.mount = none →
       (AsyncBackgroundSession.new se w).1
         = Except.error (ioErrorFromRawOsError ENODEV)
       ∧ (AsyncBackgroundSession.new se w).2.1 = false)
    ∧ (∀ m, se.mount = some m →
       (∃ hb, (AsyncBackgroundSession.new se w).1 = Except.ok hb)
       ∧ (AsyncBackgroundSession.new se w).2.1 = true) := by
  constructor
  · intro hm
    simp [AsyncBackgroundSession.new, hm]
  · intro m hm
    refine ⟨⟨⟨se.mountpoint, w, m, SenderFate.pending⟩, ?_⟩, ?_⟩ <;>
      simp [AsyncBackgroundSession.new, hm]

/-- Witness for C3 at concrete sessions with and without a token. -/
theorem new_spawns_iff_token_witness :
    (AsyncBackgroundSession.new ⟨"/mnt", none⟩
        (WorkerOutcome.returned RunResult.ok)).2.1 = false
    ∧ (AsyncBackgroundSession.new ⟨"/mnt", some Mount.mk⟩
        (WorkerOutcome.returned RunResult.ok)).2.1 = true :=
  ⟨((new_spawns_iff_token ⟨"/mnt", none⟩
      (WorkerOutcome.returned RunResult.ok)).1 rfl).2,
   ((new_spawns_iff_token ⟨"/mnt", some Mount.mk⟩
      (WorkerOutcome.returned RunResult.ok)).2 Mount.mk rfl).2⟩

/-- C4 as stated is false: on the tokenless error path the session value is
dropped inside `new` — the `io::Result` error carries no session — and is
not returned to the caller. -/
theorem new_error_path_drops_session :
    (AsyncBackgroundSession.new ⟨"/mnt", none⟩
        (WorkerOutcome.returned RunResult.ok)).2.2 = SessionFate.droppedByNew
    ∧ SessionFate.droppedByNew ≠ SessionFate.returnedToCaller :=
  ⟨rfl, by decide⟩

/-- C4 amended: when construction fails for lack of a mount token, the
constructor spawns nothing and hands back only the ENODEV error; the session
— value-unchanged, since taking an absent token leaves the field `none` as it
was — is consumed and dropped inside `new`, not returned to the caller. -/
theorem new_error_path_behavior (se : Session) (w : WorkerOutcome)
    (hm : se.mount = none) :
    (AsyncBackgroundSession.new se w).1
      = Except.error (ioErrorFromRawOsError ENODEV)
    ∧ (AsyncBackgroundSession.new se w).2.1 = false
    ∧ (AsyncBackgroundSession.new se w).2.2 = SessionFate.droppedByNew
    ∧ { se with mount := none } = se := by
  refine ⟨?_, ?_, ?_, ?_⟩
  · simp [AsyncBackgroundSession.new, hm]
  · simp [AsyncBackgroundSession.new, hm]
  · simp [AsyncBackgroundSession.new, hm]
  · obtain ⟨mp, m⟩ := se
    cases m with
    | none => rfl
    | some mm => exact Option.noConfusion hm

/-- Witness for C4's amended claim at a concrete tokenless session. -/
theorem new_error_path_behavior_witness :
    (AsyncBackgroundSession.new ⟨"/mnt", none⟩ WorkerOutcome.panicked).2.1
      = false :=
  (new_error_path_behavior ⟨"/mnt", none⟩ WorkerOutcome.panicked rfl).2.1

/-- C5: the worker body attempts the completion send exactly once, strictly
after `run()` has returned; the send's outcome is discarded, so the body is
independent of whether a listener existed; and the thread's outcome is
exactly the captured result of `run()`. -/
theorem worker_signal_after_run (runRes : RunResult) (ra ra' : Bool) :
    (workerBody runRes ra).1.count Ev.sendAttempted = 1
    ∧ (workerBody runRes ra).1.indexOf Ev.runReturned
        < (workerBody runRes ra).1.indexOf Ev.sendAttempted
    ∧ workerBody runRes ra = workerBody runRes ra'
    ∧ (workerBody runRes ra).2 = runRes :=
  ⟨by simp only [workerBody]; decide, by simp only [workerBody]; decide,
   rfl, rfl⟩

/-- C6: `await_umount` never blocks on the worker; while the await is
pending it releases nothing and leaves the lifecycle state untouched; it
resolves once the signal was sent, and it also resolves when the producer
was dropped without ever sending. -/
theorem await_umount_resolution (h : AsyncBackgroundSession) (st : LifeState) :
    Ev.blockOnWorker ∉ (h.await_umount).1
    ∧ (runTrace st (h.await_umount).1).workerRunning = st.workerRunning
    ∧ (h._receiver = SenderFate.pending →
        (h.await_umount).2 = none
        ∧ Ev.releaseMount ∉ (h.await_umount).1
        ∧ runTrace st (h.await_umount).1 = st)
    ∧ (h._receiver = SenderFate.sent → (h.await_umount).2 = some ())
    ∧ (h._receiver = SenderFate.droppedUnsent →
        (h.await_umount).2 = some ()) := by
  cases hr : h._receiver <;>
    simp [AsyncBackgroundSession.await_umount, hr, recvAwait, runTrace, stepEv]

/-- Witness for C6 at a concrete handle whose producer already sent. -/
theorem await_umount_resolution_witness :
    ((AsyncBackgroundSession.await_umount
        ⟨"/mnt", WorkerOutcome.returned RunResult.ok, Mount.mk,
          SenderFate.sent⟩)).2 = some () :=
  (await_umount_resolution
      ⟨"/mnt", WorkerOutcome.returned RunResult.ok, Mount.mk, SenderFate.sent⟩
      ⟨true, true⟩).2.2.2.1 rfl

/-- C7: dropping the handle without `join` or `await_umount` still drops the
`Mount` token — its destructor triggers the unmount — and never blocks on
the worker thread, whose running state is untouched by the drop. -/
theorem drop_releases_without_blocking
    (h : AsyncBackgroundSession) (st : LifeState) :
    Ev.releaseMount ∈ h.dropHandle
    ∧ Ev.blockOnWorker ∉ h.dropHandle
    ∧ (runTrace st h.dropHandle).mountActive = false
    ∧ (runTrace st h.dropHandle).workerRunning = st.workerRunning := by
  refine ⟨?_, ?_, ?_, ?_⟩ <;>
    simp [AsyncBackgroundSession.dropHandle, runTrace, stepEv]

/-- C8: every operation on the handle consumes it (all receivers are
by-value and the type is not `Copy`), so Rust's move checking accepts a
straight-line program on one handle variable iff it invokes at most one of
join, await_umount and drop; a second invocation is rejected at compile
time. -/
theorem handle_is_linear (ops : List HandleOp) :
    moveCheck ops = true ↔ ops.length ≤ 1 := by
  cases ops with
  | nil => simp [moveCheck]
  | cons op rest =>
      cases rest <;>
        cases op <;>
          simp [moveCheck, consumes, receiverMode, handleIsCopy]

/-- C9: after the worker's loop has terminated — whether it returned
success, returned an I/O error, or exited after an external unmount, and
whether its terminal event sent the signal or dropped the sender —
`await_umount` resolves, and resolves with the same value in every case:
the caller cannot distinguish the causes from this path. -/
theorem await_umount_hides_outcome (g₁ g₂ : AsyncBackgroundSession) :
    ((afterWorkerExit g₁).await_umount).2 = some ()
    ∧ ((afterWorkerExit g₂).await_umount).2 = some ()
    ∧ ((afterWorkerExit g₁).await_umount).2
        = ((afterWorkerExit g₂).await_umount).2 := by
  refine ⟨awaitUmount_after_exit_resolves g₁,
    awaitUmount_after_exit_resolves g₂, ?_⟩
  rw [awaitUmount_after_exit_resolves g₁, awaitUmount_after_exit_resolves g₂]

/-- C10: the construction failure for a missing mount token is concretely
`io::Error::from_raw_os_error(libc::ENODEV)` — raw OS error code 19 — and
nothing more structured: a plain `io::Error` a caller can match by code. -/
theorem new_error_is_enodev (se : Session) (w : WorkerOutcome)
    (hm : se.mount = none) :
    (AsyncBackgroundSession.new se w).1 = Except.error ⟨some 19⟩
    ∧ ENODEV = 19
    ∧ (ioErrorFromRawOsError ENODEV).rawOsError = some 19 := by
  refine ⟨?_, rfl, rfl⟩
  simp [AsyncBackgroundSession.new, hm, ioErrorFromRawOsError, ENODEV]

/-- Witness for C10 at a concrete tokenless session. -/
theorem new_error_is_enodev_witness :
    (AsyncBackgroundSession.new ⟨"/mnt", none⟩
        (WorkerOutcome.returned RunResult.ok)).1 = Except.error ⟨some 19⟩ :=
  (new_error_is_enodev ⟨"/mnt", none⟩
      (WorkerOutcome.returned RunResult.ok) rfl).1
